import Mathlib

/-!
# Verification of the Elmo EtherCAT drive driver (`Elmo.cpp`)

Shallow embedding of the drive-controller logic in
`src/elmo_ethercat_sdk/Elmo.cpp` (namespace `elmo`, class `Elmo`).

The class headers (`DriveState.hpp`, `Controlword.hpp`, `Reading.hpp`,
`Configuration.hpp`, ...) are not part of the provided sources; where a
definition below stands in for such missing code, its doc comment starts
with `Modelled from the spec:` and names what is missing.  Everything else
is translated directly from `Elmo.cpp`.

Conventions of the embedding:
* member variables of `Elmo` become fields of `ElmoState`, threaded
  explicitly through every operation;
* the EtherCAT bus/master collaborator becomes a `Bus` oracle: the n-th
  mailbox (SDO) operation issued by the driver receives the oracle's
  result/value at ordinal n, and every issued operation is recorded in
  an `opLog`;
* C++ `success &= f();` is **not** short-circuiting: `f()` is always
  evaluated.  The embedding therefore always performs the call and then
  combines the Booleans (`chainVia`/`verifyChain` fold over the full
  list of operations unconditionally);
* `double` configuration fields are modelled as rationals (`ℚ`);
* monotonic time (`std::chrono::steady_clock`) is modelled as a `Nat`
  microsecond count passed in as `now`.
-/

namespace Elmo

/-- Modelled from the spec: `DriveState.hpp` is not under `src/`.  The spec
(§3) fixes the enum: the six defined CiA 402 states, the transient
`NotReadyToSwitchOn`, and an explicit undefined/unknown outcome (`NA`). -/
inductive DriveState where
  | NotReadyToSwitchOn
  | SwitchOnDisabled
  | ReadyToSwitchOn
  | SwitchedOn
  | OperationEnabled
  | QuickStopActive
  | Fault
  | NA
deriving DecidableEq, Repr

/-- Modelled from the spec: `DriveState.hpp` is not under `src/`.  These are
exactly the named standard transitions used by `Elmo.cpp`
(`StateTransition::_2` ... `::_12`, `::_15`). -/
inductive StateTransition where
  | t2 | t3 | t4 | t5 | t6 | t7 | t8 | t9 | t10 | t11 | t12 | t15
deriving DecidableEq, Repr

/-- Modelled from the spec: `Controlword.hpp` is not under `src/`.  Per the
spec (§3) each named `StateTransition` maps to a fixed controlword bit
pattern, independent of the drive instance, and `setAllFalse` clears all
transition bits.  We represent a controlword bit pattern by the transition
that produced it (`none` = no transition bits set): distinct transitions
have distinct fixed patterns. -/
structure Controlword where
  transition : Option StateTransition
deriving DecidableEq, Repr

/-- `Controlword::setAllFalse()`: clear all transition bits. -/
def Controlword.setAllFalse (_ : Controlword) : Controlword := ⟨none⟩

/-- `Controlword::setStateTransitionN()`: set the fixed bit pattern of the
named standard transition (overwriting the previous pattern). -/
def Controlword.setStateTransition (_ : Controlword) (t : StateTransition) :
    Controlword := ⟨some t⟩

/-- Error taxonomy reported into the `Reading`'s error log (spec §7);
`ErrorType` values used by `Elmo.cpp`. -/
inductive ErrorType where
  | ModeOfOperationError
  | RxPdoTypeError
  | TxPdoTypeError
  | PdoMappingError
  | TxPdoMappingError
  | SdoStateTransitionError
  | PdoStateTransitionError
  | ConfigurationError
  | ErrorReadingError
deriving DecidableEq, Repr

/-- Modelled from the spec: `ModeOfOperationEnum` (header not under `src/`).
`NA` plus representative cyclic-synchronous modes. -/
inductive ModeOfOperationEnum where
  | NA
  | CyclicSynchronousPositionMode
  | CyclicSynchronousVelocityMode
  | CyclicSynchronousTorqueMode
deriving DecidableEq, Repr

/-- `RxPdoTypeEnum`: the record-type selection for the command direction
(spec §4.4: a full-featured type, a reduced cyclic-synchronous-torque type,
and the unassigned value `NA`). -/
inductive RxPdoTypeEnum where
  | NA
  | RxPdoStandard
  | RxPdoCST
deriving DecidableEq, Repr

/-- `TxPdoTypeEnum`: the record-type selection for the telemetry direction. -/
inductive TxPdoTypeEnum where
  | NA
  | TxPdoStandard
  | TxPdoCST
deriving DecidableEq, Repr

/-- Modelled from the spec: `Reading.hpp` is not under `src/`.  The
drive-sourced telemetry snapshot (spec §3): actual values, the decoded
drive state of the stored statusword, and the accumulated error/fault
logs.  `Statusword::getDriveState()` (the pure standard-bit-pattern
decoder, spec §4.1) is also missing code; we therefore store the decoded
`DriveState` directly and quantify over all decode outcomes. -/
structure Reading where
  driveState : DriveState
  actualPosition : Int
  actualVelocity : Int
  actualCurrent : Int
  busVoltage : Int
  digitalInputs : Int
  analogInput : Int
  errors : List ErrorType
  faults : List Nat
deriving DecidableEq, Repr

/-- `Reading::addError`: append an error to the reading's error log. -/
def Reading.addError (r : Reading) (e : ErrorType) : Reading :=
  { r with errors := r.errors ++ [e] }

/-- `Reading::addFault`: append a fault code to the reading's fault history. -/
def Reading.addFault (r : Reading) (f : Nat) : Reading :=
  { r with faults := r.faults ++ [f] }

/-- `Command`: the staged command's raw integer fields, as consumed by
`updateWrite` (`getTargetPositionRaw()` etc.). -/
structure Command where
  targetPositionRaw : Int
  targetVelocityRaw : Int
  targetTorqueRaw : Int
  maxTorqueRaw : Int
  torqueOffsetRaw : Int
deriving DecidableEq, Repr

/-- Modelled from the spec: `Configuration.hpp` is not under `src/`.  The
per-drive calibration and behaviour parameters named by the spec (§3) and
used by `Elmo.cpp`; `double` fields become rationals. -/
structure Configuration where
  motorRatedCurrentA : ℚ
  maxCurrentA : ℚ
  motorConstant : ℚ
  gearRatio : ℚ
  positionEncoderResolution : Nat
  rxPdoTypeEnum : RxPdoTypeEnum
  txPdoTypeEnum : TxPdoTypeEnum
  modeOfOperationEnum : ModeOfOperationEnum
  configRunSdoVerifyTimeout : Nat
  driveStateChangeMinTimeout : Nat
  driveStateChangeMaxTimeout : Nat
  minNumberOfSuccessfulTargetStateReadings : Nat
  useMultipleModeOfOperations : Bool
  useRawCommands : Bool
deriving DecidableEq, Repr

/-- One mailbox (SDO) operation issued to the bus, as recorded in the
operation log: a read of `(index, sub)`, a controlword write, or a
verify-write of a value to `(index, sub)`.  The mode-of-operation
verify-write keeps its enum value (the numeric `int8_t` codes live in the
missing headers). -/
inductive SdoOp where
  | read (index sub : Nat)
  | writeControlword (cw : Controlword)
  | verifyWrite (index sub : Nat) (value : Int)
  | verifyWriteMode (index sub : Nat) (value : ModeOfOperationEnum)
deriving DecidableEq, Repr

/-- Modelled from the spec: `ObjectDictionary.hpp` is not under `src/`; the
spec (§6) says the referenced indices are the standard CoE indices. -/
def OD_INDEX_STATUSWORD : Nat := 0x6041
/-- Standard CoE controlword index. -/
def OD_INDEX_CONTROLWORD : Nat := 0x6040
/-- Standard CoE modes-of-operation index. -/
def OD_INDEX_MODES_OF_OPERATION : Nat := 0x6060
/-- Standard CoE rx PDO assignment list index. -/
def OD_INDEX_RX_PDO_ASSIGNMENT : Nat := 0x1c12
/-- Standard CoE tx PDO assignment list index. -/
def OD_INDEX_TX_PDO_ASSIGNMENT : Nat := 0x1c13
/-- Standard CoE motor rated current index. -/
def OD_INDEX_MOTOR_RATED_CURRENT : Nat := 0x6075
/-- Standard CoE motor rated torque index. -/
def OD_INDEX_MOTOR_RATED_TORQUE : Nat := 0x6076
/-- Standard CoE maximum current index. -/
def OD_INDEX_MAX_CURRENT : Nat := 0x6073
/-- Standard CoE error code index. -/
def OD_INDEX_ERROR_CODE : Nat := 0x603f

/-- The bus/master collaborator (spec §6), as an oracle over operation
ordinals: `result n` is the success flag of the n-th SDO operation issued
by this driver, `readValue n` its returned value when it is a read, and
`readState n` the decoded drive state when it is a statusword read
(the `Statusword` decoder itself is missing code, so the oracle yields
the decoded outcome directly).  `hardwarePdoSizes` is the negotiated
(rx, tx) frame-size pair. -/
structure Bus where
  result : Nat → Bool
  readValue : Nat → Nat
  readState : Nat → DriveState
  hardwarePdoSizes : Nat × Nat

/-- The mutable member state of an `Elmo` object, as used by `Elmo.cpp`,
extended with the SDO operation counter/log of the embedding. -/
structure ElmoState where
  reading : Reading
  configuration_ : Configuration
  modeOfOperation_ : ModeOfOperationEnum
  conductStateChange_ : Bool
  stateChangeSuccessful_ : Bool
  hasRead_ : Bool
  targetDriveState_ : DriveState
  numberOfSuccessfulTargetStateReadings_ : Nat
  controlword_ : Controlword
  currentRxPdoTypeEnum_ : RxPdoTypeEnum
  currentTxPdoTypeEnum_ : TxPdoTypeEnum
  driveStateChangeTimePoint_ : Nat
  stagedCommand_ : Command
  allowModeChange_ : Bool
  pdoInfo_ : Nat × Nat
  opCount : Nat
  opLog : List SdoOp
deriving DecidableEq, Repr

/-- `Elmo::addErrorToReading`: record an error in the reading. -/
def addErrorToReading (e : ErrorType) (s : ElmoState) : ElmoState :=
  { s with reading := s.reading.addError e }

/-- Issue one SDO operation to the bus: log it, consume one oracle ordinal,
and return the oracle's success flag. -/
def issueOp (bus : Bus) (op : SdoOp) (s : ElmoState) : Bool × ElmoState :=
  (bus.result s.opCount,
   { s with opCount := s.opCount + 1, opLog := s.opLog ++ [op] })

/-!
## Drive state machine: `Elmo::getNextStateTransitionControlword`
(`Elmo.cpp` lines 687-855)

The nested `switch` over `(requestedDriveState, currentDriveState)`:
the controlword starts from `setAllFalse()`; each off-diagonal defined
pair sets one fixed transition; the diagonal and the undefined cases
record a `PdoStateTransitionError` and leave the pattern all-false.
-/

/-- The transition set by the inner `switch` of
`getNextStateTransitionControlword` for a (requested, current) pair:
`none` encodes the branches that only record a `PdoStateTransitionError`
(the diagonal, an undefined current state, and a non-requestable
requested state). -/
def pdoTransitionTable : DriveState → DriveState → Option StateTransition
  | .SwitchOnDisabled, .ReadyToSwitchOn => some .t7
  | .SwitchOnDisabled, .SwitchedOn => some .t10
  | .SwitchOnDisabled, .OperationEnabled => some .t9
  | .SwitchOnDisabled, .QuickStopActive => some .t12
  | .SwitchOnDisabled, .Fault => some .t15
  | .ReadyToSwitchOn, .SwitchOnDisabled => some .t2
  | .ReadyToSwitchOn, .SwitchedOn => some .t6
  | .ReadyToSwitchOn, .OperationEnabled => some .t8
  | .ReadyToSwitchOn, .QuickStopActive => some .t12
  | .ReadyToSwitchOn, .Fault => some .t15
  | .SwitchedOn, .SwitchOnDisabled => some .t2
  | .SwitchedOn, .ReadyToSwitchOn => some .t3
  | .SwitchedOn, .OperationEnabled => some .t5
  | .SwitchedOn, .QuickStopActive => some .t12
  | .SwitchedOn, .Fault => some .t15
  | .OperationEnabled, .SwitchOnDisabled => some .t2
  | .OperationEnabled, .ReadyToSwitchOn => some .t3
  | .OperationEnabled, .SwitchedOn => some .t4
  | .OperationEnabled, .QuickStopActive => some .t12
  | .OperationEnabled, .Fault => some .t15
  | .QuickStopActive, .SwitchOnDisabled => some .t2
  | .QuickStopActive, .ReadyToSwitchOn => some .t3
  | .QuickStopActive, .SwitchedOn => some .t4
  | .QuickStopActive, .OperationEnabled => some .t11
  | .QuickStopActive, .Fault => some .t15
  | _, _ => none

/-- `Elmo::getNextStateTransitionControlword(requested, current)`:
start from an all-false controlword; set the table's transition for the
pair, or record a `PdoStateTransitionError` when the table has none
(the "drive state has already been reached" diagonal, the undefined
current state, and the non-requestable requested state all land in
error-recording branches of the C++ `switch`). -/
def getNextStateTransitionControlword (requested current : DriveState)
    (s : ElmoState) : Controlword × ElmoState :=
  let controlword : Controlword := Controlword.setAllFalse ⟨none⟩
  match pdoTransitionTable requested current with
  | some t => (controlword.setStateTransition t, s)
  | none => (controlword, addErrorToReading .PdoStateTransitionError s)

/-- The five drive states a state-change request may target over PDO
(the outer `switch` cases; `Fault`, the transient state and `NA` fall
into the outer `default`). -/
def requestableState (d : DriveState) : Bool :=
  match d with
  | .SwitchOnDisabled | .ReadyToSwitchOn | .SwitchedOn
  | .OperationEnabled | .QuickStopActive => true
  | _ => false

/-- The six defined CiA 402 states (spec §3). -/
def definedState (d : DriveState) : Bool :=
  match d with
  | .SwitchOnDisabled | .ReadyToSwitchOn | .SwitchedOn
  | .OperationEnabled | .QuickStopActive | .Fault => true
  | _ => false

/-- Spec-side table for C1: the one fixed standard CiA 402 transition for a
(requested, current) pair of defined states — the first transition of the
standard chain from `current` toward `requested` (transition 2
SwitchOnDisabled→ReadyToSwitchOn, 3 ReadyToSwitchOn→SwitchedOn,
4 SwitchedOn→OperationEnabled, 5/6/7/8/9/10 the reverse steps,
11 OperationEnabled→QuickStopActive, 12 QuickStopActive→SwitchOnDisabled,
15 the fault reset Fault→SwitchOnDisabled).  Written from the spec's
words (§4.1, §8), to be compared with the source's table. -/
def standardFirstTransition : DriveState → DriveState → Option StateTransition
  | _, .Fault => some .t15
  | .SwitchOnDisabled, .ReadyToSwitchOn => some .t7
  | .SwitchOnDisabled, .SwitchedOn => some .t10
  | .SwitchOnDisabled, .OperationEnabled => some .t9
  | .SwitchOnDisabled, .QuickStopActive => some .t12
  | .ReadyToSwitchOn, .SwitchOnDisabled => some .t2
  | .ReadyToSwitchOn, .SwitchedOn => some .t6
  | .ReadyToSwitchOn, .OperationEnabled => some .t8
  | .ReadyToSwitchOn, .QuickStopActive => some .t12
  | .SwitchedOn, .SwitchOnDisabled => some .t2
  | .SwitchedOn, .ReadyToSwitchOn => some .t3
  | .SwitchedOn, .OperationEnabled => some .t5
  | .SwitchedOn, .QuickStopActive => some .t12
  | .OperationEnabled, .SwitchOnDisabled => some .t2
  | .OperationEnabled, .ReadyToSwitchOn => some .t3
  | .OperationEnabled, .SwitchedOn => some .t4
  | .OperationEnabled, .QuickStopActive => some .t12
  | .QuickStopActive, .SwitchOnDisabled => some .t2
  | .QuickStopActive, .ReadyToSwitchOn => some .t3
  | .QuickStopActive, .SwitchedOn => some .t4
  | .QuickStopActive, .OperationEnabled => some .t11
  | _, _ => none

/-!
## Blocking SDO state-change path
(`Elmo.cpp` lines 240-488)
-/

/-- `Elmo::getStatuswordViaSdo`: one blocking SDO read of the statusword;
the statusword object is filled from the read value regardless of the
success flag, so the decoded current state is the oracle's `readState`
at the consumed ordinal. -/
def getStatuswordViaSdo (bus : Bus) (s : ElmoState) :
    Bool × DriveState × ElmoState :=
  let cur := bus.readState s.opCount
  let (ok, s') := issueOp bus (.read OD_INDEX_STATUSWORD 0) s
  (ok, cur, s')

/-- `Elmo::setControlwordViaSdo`: one blocking SDO write of the raw
controlword. -/
def setControlwordViaSdo (bus : Bus) (cw : Controlword) (s : ElmoState) :
    Bool × ElmoState :=
  issueOp bus (.writeControlword cw) s

/-- `Elmo::stateTransitionViaSdo`: build the controlword for the named
transition and write it over SDO.  The C++ `switch` covers all twelve
transitions used in this file; its `default` branch is unreachable for
them. -/
def stateTransitionViaSdo (bus : Bus) (t : StateTransition) (s : ElmoState) :
    Bool × ElmoState :=
  let controlword : Controlword := ⟨none⟩
  setControlwordViaSdo bus (controlword.setStateTransition t) s

/-- Sequential `success &= stateTransitionViaSdo(...)` chain.  C++ `&=` on
`bool` is not short-circuiting: every call in the chain is issued
regardless of earlier results, and the results are and-ed together. -/
def chainVia (bus : Bus) (ts : List StateTransition) (acc : Bool)
    (s : ElmoState) : Bool × ElmoState :=
  match ts with
  | [] => (acc, s)
  | t :: rest =>
      let (r, s') := stateTransitionViaSdo bus t s
      chainVia bus rest (acc && r) s'

/-- The transition chain issued by `Elmo::setDriveStateViaSdo` for each
(target, current) pair of its nested `switch`: `some []` on the diagonal
(`success &= true;`), `some chain` for the defined off-diagonal pairs, and
`none` for the `default` branches (undefined current state, or a target
outside the five requestable states). -/
def sdoChain : DriveState → DriveState → Option (List StateTransition)
  | .SwitchOnDisabled, .SwitchOnDisabled => some []
  | .SwitchOnDisabled, .ReadyToSwitchOn => some [.t7]
  | .SwitchOnDisabled, .SwitchedOn => some [.t10]
  | .SwitchOnDisabled, .OperationEnabled => some [.t9]
  | .SwitchOnDisabled, .QuickStopActive => some [.t12]
  | .SwitchOnDisabled, .Fault => some [.t15]
  | .ReadyToSwitchOn, .SwitchOnDisabled => some [.t2]
  | .ReadyToSwitchOn, .ReadyToSwitchOn => some []
  | .ReadyToSwitchOn, .SwitchedOn => some [.t6]
  | .ReadyToSwitchOn, .OperationEnabled => some [.t8]
  | .ReadyToSwitchOn, .QuickStopActive => some [.t12, .t2]
  | .ReadyToSwitchOn, .Fault => some [.t15, .t2]
  | .SwitchedOn, .SwitchOnDisabled => some [.t2, .t3]
  | .SwitchedOn, .ReadyToSwitchOn => some [.t3]
  | .SwitchedOn, .SwitchedOn => some []
  | .SwitchedOn, .OperationEnabled => some [.t5]
  | .SwitchedOn, .QuickStopActive => some [.t12, .t2, .t3]
  | .SwitchedOn, .Fault => some [.t15, .t2, .t3]
  | .OperationEnabled, .SwitchOnDisabled => some [.t2, .t3, .t4]
  | .OperationEnabled, .ReadyToSwitchOn => some [.t3, .t4]
  | .OperationEnabled, .SwitchedOn => some [.t4]
  | .OperationEnabled, .OperationEnabled => some []
  | .OperationEnabled, .QuickStopActive => some [.t12, .t2, .t3, .t4]
  | .OperationEnabled, .Fault => some [.t15, .t2, .t3, .t4]
  | .QuickStopActive, .SwitchOnDisabled => some [.t2, .t3, .t4, .t11]
  | .QuickStopActive, .ReadyToSwitchOn => some [.t3, .t4, .t11]
  | .QuickStopActive, .SwitchedOn => some [.t4, .t11]
  | .QuickStopActive, .OperationEnabled => some [.t11]
  | .QuickStopActive, .QuickStopActive => some []
  | .QuickStopActive, .Fault => some [.t15, .t2, .t3, .t4, .t11]
  | _, _ => none

/-- `Elmo::setDriveStateViaSdo(driveState)` (`Elmo.cpp` 251-430): read the
current state over SDO, then issue the transition chain of the nested
`switch` with `success &= ...` accumulation; the `default` branches record
an `SdoStateTransitionError` and set `success = false`. -/
def setDriveStateViaSdo (bus : Bus) (driveState : DriveState)
    (s : ElmoState) : Bool × ElmoState :=
  let (r0, currentDriveState, s1) := getStatuswordViaSdo bus s
  match sdoChain driveState currentDriveState with
  | some ts => chainVia bus ts r0 s1
  | none => (false, addErrorToReading .SdoStateTransitionError s1)

/-!
## Verify-write and PDO mapping
(`Elmo.cpp` lines 556-685; `sdoVerifyWrite` itself is not under `src/`)
-/

/-- Modelled from the spec: `sdoVerifyWrite` is not under `src/`.  Per the
spec (§4.2) it writes a value and requires an equal read-back within the
configured timeout before declaring success; we model one logged mailbox
operation whose outcome is the bus oracle's result. -/
def sdoVerifyWrite (bus : Bus) (index sub : Nat) (value : Int)
    (s : ElmoState) : Bool × ElmoState :=
  issueOp bus (.verifyWrite index sub value) s

/-- Sequential `success &= sdoVerifyWrite(...)` chain over a fixed list of
`(index, sub, value)` writes; as with `chainVia`, `&=` issues every write
regardless of earlier results.  The `usleep` settle delays between the
writes issue no mailbox operation and are not modelled. -/
def verifyChain (bus : Bus) (ops : List (Nat × Nat × Int)) (acc : Bool)
    (s : ElmoState) : Bool × ElmoState :=
  match ops with
  | [] => (acc, s)
  | (i, sub, v) :: rest =>
      let (r, s') := sdoVerifyWrite bus i sub v s
      verifyChain bus rest (acc && r) s'

/-- The rx-side assignment writes of `Elmo::mapPdos` per record type:
clear the assignment list, write the object references, write the count;
`none` for the `NA`/unimplemented branches, which record a
`PdoMappingError` and issue no write. -/
def rxMapOps : RxPdoTypeEnum → Option (List (Nat × Nat × Int))
  | .RxPdoStandard => some
      [(OD_INDEX_RX_PDO_ASSIGNMENT, 0, 0),
       (OD_INDEX_RX_PDO_ASSIGNMENT, 1, 0x1605),
       (OD_INDEX_RX_PDO_ASSIGNMENT, 2, 0x1618),
       (OD_INDEX_RX_PDO_ASSIGNMENT, 0, 2)]
  | .RxPdoCST => some
      [(OD_INDEX_RX_PDO_ASSIGNMENT, 0, 0),
       (OD_INDEX_RX_PDO_ASSIGNMENT, 1, 0x1602),
       (OD_INDEX_RX_PDO_ASSIGNMENT, 2, 0x160b),
       (OD_INDEX_RX_PDO_ASSIGNMENT, 0, 2)]
  | .NA => none

/-- The tx-side assignment writes of `Elmo::mapPdos` per record type;
`none` for the `NA`/unimplemented branches (`TxPdoMappingError`). -/
def txMapOps : TxPdoTypeEnum → Option (List (Nat × Nat × Int))
  | .TxPdoStandard => some
      [(OD_INDEX_TX_PDO_ASSIGNMENT, 0, 0),
       (OD_INDEX_TX_PDO_ASSIGNMENT, 1, 0x1a03),
       (OD_INDEX_TX_PDO_ASSIGNMENT, 2, 0x1a1d),
       (OD_INDEX_TX_PDO_ASSIGNMENT, 3, 0x1a1f),
       (OD_INDEX_TX_PDO_ASSIGNMENT, 4, 0x1a18),
       (OD_INDEX_TX_PDO_ASSIGNMENT, 0, 4)]
  | .TxPdoCST => some
      [(OD_INDEX_TX_PDO_ASSIGNMENT, 0, 0),
       (OD_INDEX_TX_PDO_ASSIGNMENT, 1, 0x1a02),
       (OD_INDEX_TX_PDO_ASSIGNMENT, 2, 0x1a11),
       (OD_INDEX_TX_PDO_ASSIGNMENT, 0, 2)]
  | .NA => none

/-- `Elmo::configureRxPdo` (`Elmo.cpp` 643-663): `NA` records an
`RxPdoTypeError` and fails; otherwise the current rx type is set (or kept)
and the call succeeds. -/
def configureRxPdo (rxPdoTypeEnum : RxPdoTypeEnum) (s : ElmoState) :
    Bool × ElmoState :=
  if rxPdoTypeEnum = .NA then
    (false, addErrorToReading .RxPdoTypeError s)
  else if rxPdoTypeEnum = s.currentRxPdoTypeEnum_ then
    (true, s)
  else
    (true, { s with currentRxPdoTypeEnum_ := rxPdoTypeEnum })

/-- `Elmo::configureTxPdo` (`Elmo.cpp` 665-685): the `NA` branch records an
`RxPdoTypeError` (sic — the source records the rx error kind here) and
fails; otherwise the current tx type is set (or kept) and the call
succeeds. -/
def configureTxPdo (txPdoTypeEnum : TxPdoTypeEnum) (s : ElmoState) :
    Bool × ElmoState :=
  if txPdoTypeEnum = .NA then
    (false, addErrorToReading .RxPdoTypeError s)
  else if txPdoTypeEnum = s.currentTxPdoTypeEnum_ then
    (true, s)
  else
    (true, { s with currentTxPdoTypeEnum_ := txPdoTypeEnum })

/-- `Elmo::mapPdos(rx, tx)` (`Elmo.cpp` 556-641): issue the rx-side
assignment writes (or record a `PdoMappingError` for `NA`), then the
tx-side writes (or `TxPdoMappingError`), then — only for a so-far
successful side — adopt the type via `configureRx/TxPdo`; return the
conjunction of both sides. -/
def mapPdos (bus : Bus) (rxPdoTypeEnum : RxPdoTypeEnum)
    (txPdoTypeEnum : TxPdoTypeEnum) (s : ElmoState) : Bool × ElmoState :=
  let (rxSuccess, s1) :=
    match rxMapOps rxPdoTypeEnum with
    | some ops => verifyChain bus ops true s
    | none => (false, addErrorToReading .PdoMappingError s)
  let (txSuccess, s2) :=
    match txMapOps txPdoTypeEnum with
    | some ops => verifyChain bus ops true s1
    | none => (false, addErrorToReading .TxPdoMappingError s1)
  let (rxSuccess, s3) :=
    if rxSuccess then
      let (r, s') := configureRxPdo rxPdoTypeEnum s2
      (rxSuccess && r, s')
    else (rxSuccess, s2)
  let (txSuccess, s4) :=
    if txSuccess then
      let (r, s') := configureTxPdo txPdoTypeEnum s3
      (txSuccess && r, s')
    else (txSuccess, s3)
  (txSuccess && rxSuccess, s4)

/-!
## Pre-operational configuration
(`Elmo.cpp` lines 129-171)
-/

/-- `Elmo::autoConfigurePdoSizes`: re-derive the negotiated PDO frame
sizes from the bus (`getHardwarePdoSizes`); issues no mailbox operation. -/
def autoConfigurePdoSizes (bus : Bus) (s : ElmoState) : ElmoState :=
  { s with pdoInfo_ := bus.hardwarePdoSizes }

/-- `Elmo::runPreopConfiguration` (`Elmo.cpp` 129-171): the blocking
configuration sequence, with `success &= ...` (non-short-circuiting)
accumulation across every step, and a single `ConfigurationError`
recorded at the end iff `success` ended up false.
`reading_.configureReading(configuration_)` (missing code) stores
unit-conversion factors in the reading and is modelled as a no-op on the
fields we track. -/
def runPreopConfiguration (bus : Bus) (s : ElmoState) : Bool × ElmoState :=
  -- motor rated current not specified: load the hardware value over SDO
  -- (the configuration field is back-filled from the read value
  -- regardless of the read's success flag)
  let p0 : Bool × ElmoState :=
    if s.configuration_.motorRatedCurrentA = 0 then
      let v := bus.readValue s.opCount
      let q := issueOp bus (.read OD_INDEX_MOTOR_RATED_CURRENT 0) s
      (true && q.1,
       { q.2 with configuration_ :=
           { q.2.configuration_ with motorRatedCurrentA := (v : ℚ) / 1000 } })
    else (true, s)
  let p1 := setDriveStateViaSdo bus .ReadyToSwitchOn p0.2
  -- PDO mapping
  let p2 := mapPdos bus p1.2.configuration_.rxPdoTypeEnum
      p1.2.configuration_.txPdoTypeEnum p1.2
  -- set initial mode of operation (verify-write)
  let p3 := issueOp bus
      (.verifyWriteMode OD_INDEX_MODES_OF_OPERATION 0
        p2.2.configuration_.modeOfOperationEnum) p2.2
  -- to be on the safe side: set current PDO sizes
  let s3 := autoConfigurePdoSizes bus p3.2
  -- write requested motor rated current (and the identical rated torque)
  let motorRatedCurrent : Int := round (1000 * s3.configuration_.motorRatedCurrentA)
  let p4 := sdoVerifyWrite bus OD_INDEX_MOTOR_RATED_CURRENT 0
      motorRatedCurrent s3
  let p5 := sdoVerifyWrite bus OD_INDEX_MOTOR_RATED_TORQUE 0
      motorRatedCurrent p4.2
  -- write maximum current
  let maxCurrent : Int := ⌊1000 * p5.2.configuration_.maxCurrentA⌋
  let p6 := sdoVerifyWrite bus OD_INDEX_MAX_CURRENT 0 maxCurrent p5.2
  let success := p0.1 && p1.1 && p2.1 && p3.1 && p4.1 && p5.1 && p6.1
  (success,
   if success then p6.2 else addErrorToReading .ConfigurationError p6.2)

/-!
## Non-blocking PDO state-change engine and the cyclic path
(`Elmo.cpp` lines 23-127, 490-554, 871-904)
-/

/-- `Elmo::engagePdoStateMachine` (`Elmo.cpp` 871-904).  `now` is the
monotonic clock in microseconds.  If the current reading equals the
target, the success counter is incremented and, at the configured
threshold, the request is declared successful (pending flag cleared,
counter zeroed) with an early `return` — which skips the trailing
`hasRead_ = false;`.  Otherwise, after the minimum dwell time, a new
controlword is fetched from the state-machine lookup and the dwell timer
reset; all non-success paths end by clearing `hasRead_`. -/
def engagePdoStateMachine (now : Nat) (s : ElmoState) : ElmoState :=
  let microsecondsSinceChange := now - s.driveStateChangeTimePoint_
  let currentDriveState := s.reading.driveState
  if currentDriveState = s.targetDriveState_ then
    let n := s.numberOfSuccessfulTargetStateReadings_ + 1
    if s.configuration_.minNumberOfSuccessfulTargetStateReadings ≤ n then
      -- early return: disables the state machine without touching hasRead_
      { s with conductStateChange_ := false,
               numberOfSuccessfulTargetStateReadings_ := 0,
               stateChangeSuccessful_ := true }
    else
      { s with numberOfSuccessfulTargetStateReadings_ := n,
               hasRead_ := false }
  else if s.configuration_.driveStateChangeMinTimeout < microsecondsSinceChange then
    let r := getNextStateTransitionControlword s.targetDriveState_
        currentDriveState s
    { r.2 with controlword_ := r.1,
               driveStateChangeTimePoint_ := now,
               hasRead_ := false }
  else
    { s with hasRead_ := false }

/-- The full-featured outbound record (`RxPdoStandard`), as filled by
`updateWrite` from the staged command, mode of operation and controlword. -/
structure RxPdoStandard where
  targetPosition_ : Int
  targetVelocity_ : Int
  targetTorque_ : Int
  maxTorque_ : Int
  modeOfOperation_ : ModeOfOperationEnum
  torqueOffset_ : Int
  controlWord_ : Controlword
deriving DecidableEq, Repr

/-- The reduced cyclic-synchronous-torque outbound record (`RxPdoCST`). -/
structure RxPdoCST where
  targetTorque_ : Int
  modeOfOperation_ : ModeOfOperationEnum
  controlWord_ : Controlword
deriving DecidableEq, Repr

/-- The record handed to `bus_->writeRxPdo` on a cyclic write, tagged by
layout. -/
inductive RxPdoWrite where
  | standard (p : RxPdoStandard)
  | cst (p : RxPdoCST)
deriving DecidableEq, Repr

/-- `Elmo::updateWrite` (`Elmo.cpp` 23-75): the cyclic write half.  With no
mode of operation set it records a `ModeOfOperationError` and returns
without writing; otherwise it engages the state machine when a change is
pending and a fresh reading exists, then encodes and hands one record to
the bus per the current rx type (`NA` records an `RxPdoTypeError` and
writes nothing). -/
def updateWrite (now : Nat) (s : ElmoState) : Option RxPdoWrite × ElmoState :=
  if s.modeOfOperation_ = .NA then
    (none, addErrorToReading .ModeOfOperationError s)
  else
    let s1 :=
      if s.conductStateChange_ && s.hasRead_ then engagePdoStateMachine now s
      else s
    match s1.currentRxPdoTypeEnum_ with
    | .RxPdoStandard =>
        (some (.standard
          { targetPosition_ := s1.stagedCommand_.targetPositionRaw,
            targetVelocity_ := s1.stagedCommand_.targetVelocityRaw,
            targetTorque_ := s1.stagedCommand_.targetTorqueRaw,
            maxTorque_ := s1.stagedCommand_.maxTorqueRaw,
            modeOfOperation_ := s1.modeOfOperation_,
            torqueOffset_ := s1.stagedCommand_.torqueOffsetRaw,
            controlWord_ := s1.controlword_ }), s1)
    | .RxPdoCST =>
        (some (.cst
          { targetTorque_ := s1.stagedCommand_.targetTorqueRaw,
            modeOfOperation_ := s1.modeOfOperation_,
            controlWord_ := s1.controlword_ }), s1)
    | .NA =>
        (none, addErrorToReading .RxPdoTypeError s1)

/-- One inbound telemetry record as read from the bus
(`TxPdoStandard`/`TxPdoCST` fields), with the statusword represented by
its decoded drive state (the `Statusword` decoder is missing code, see
`Reading`). -/
structure TxSample where
  actualPosition : Int
  actualVelocity : Int
  actualCurrent : Int
  actualTorque : Int
  busVoltage : Int
  digitalInputs : Int
  analogInput : Int
  driveStateDecoded : DriveState
deriving DecidableEq, Repr

/-- The decode phase of `Elmo::updateRead` (`Elmo.cpp` 81-114): overwrite
the reading cache per the current tx type (the `NA` default records a
`TxPdoTypeError` and decodes nothing), then set `hasRead_`. -/
def updateReadDecode (sample : TxSample) (s : ElmoState) : ElmoState :=
  let s1 :=
    match s.currentTxPdoTypeEnum_ with
    | .TxPdoStandard =>
        { s with reading :=
            { s.reading with
                actualPosition := sample.actualPosition,
                digitalInputs := sample.digitalInputs,
                actualVelocity := sample.actualVelocity,
                driveState := sample.driveStateDecoded,
                analogInput := sample.analogInput,
                actualCurrent := sample.actualCurrent,
                busVoltage := sample.busVoltage } }
    | .TxPdoCST =>
        { s with reading :=
            { s.reading with
                actualPosition := sample.actualPosition,
                -- torque readings are actually current readings
                actualCurrent := sample.actualTorque,
                driveState := sample.driveStateDecoded,
                actualVelocity := sample.actualVelocity } }
    | .NA => addErrorToReading .TxPdoTypeError s
  { s1 with hasRead_ := true }

/-- `Elmo::updateRead` (`Elmo.cpp` 77-127): decode the most recent record,
mark the fresh reading, and — when the reading's drive state is `Fault` —
perform one additional blocking SDO read of the error code, appending the
fault code on success or recording an `ErrorReadingError` on failure. -/
def updateRead (bus : Bus) (sample : TxSample) (s : ElmoState) : ElmoState :=
  let s2 := updateReadDecode sample s
  if s2.reading.driveState = .Fault then
    let v := bus.readValue s2.opCount
    let (ok, s3) := issueOp bus (.read OD_INDEX_ERROR_CODE 0) s2
    if ok then { s3 with reading := s3.reading.addFault v }
    else addErrorToReading .ErrorReadingError s3
  else s2

/-- The pending-change bookkeeping at the top of
`Elmo::setDriveStateViaPdo` (`Elmo.cpp` 498-518): reset the success flag,
raise the pending flag, store the target, clear the fresh-reading flag,
and reset the dwell timestamp to `now`. -/
def requestStateChange (driveState : DriveState) (now : Nat)
    (s : ElmoState) : ElmoState :=
  { s with stateChangeSuccessful_ := false,
           conductStateChange_ := true,
           targetDriveState_ := driveState,
           hasRead_ := false,
           driveStateChangeTimePoint_ := now }

/-- The waiting loop of `Elmo::setDriveStateViaPdo` (`Elmo.cpp` 531-550),
run concurrently with the cyclic thread: at poll `k` it first checks the
`stateChangeSuccessful_` flag (`flag k`, as left by the cyclic thread),
breaking with success; then checks the monotonic elapsed time
(`elapsed k` microseconds) against the maximum timeout, breaking with
failure; otherwise it sleeps and polls again.  The C++ loop is unbounded
(`while (true)`); `fuel` bounds the number of polls we model, with the
fuel-exhausted outcome standing for a loop that is still spinning. -/
def pdoWaitLoop (maxTimeout : Nat) (flag : Nat → Bool) (elapsed : Nat → Nat) :
    Nat → Nat → Bool
  | 0, _ => false
  | fuel + 1, k =>
      if flag k then true
      else if maxTimeout < elapsed k then false
      else pdoWaitLoop maxTimeout flag elapsed fuel (k + 1)

/-- `Elmo::setDriveStateViaPdo(driveState, waitForState)` (`Elmo.cpp`
490-554): record the pending change, then either return `true`
immediately (`waitForState == false`) or poll the success flag under the
maximum timeout.  The concurrent flag/clock observations of the waiting
loop are the `flag`/`elapsed` oracles; the returned state is the one
after the bookkeeping (the waiting loop itself only polls). -/
def setDriveStateViaPdo (driveState : DriveState) (waitForState : Bool)
    (now : Nat) (flag : Nat → Bool) (elapsed : Nat → Nat) (fuel : Nat)
    (s : ElmoState) : Bool × ElmoState :=
  let s1 := requestStateChange driveState now s
  if waitForState = false then (true, s1)
  else
    (pdoWaitLoop s.configuration_.driveStateChangeMaxTimeout flag elapsed
      fuel 0, s1)

/-!
## Interleaving of the cyclic thread and the application thread

The spec's concurrency model (§5) is two actors sharing the drive state
under one lock; every public operation's critical section is atomic.  We
model an execution as a sequence of atomic events: a cyclic read, a
cyclic write (which may invoke the state-change engine), and an
asynchronous state-change request (`setDriveStateViaPdo`'s bookkeeping;
its optional polling loop only reads a flag).  `stageCommand`,
`getReading` and the configure operations touch neither
`conductStateChange_` nor `hasRead_`.
-/

/-- One atomic critical section touching the state-change flags. -/
inductive Event where
  | read (sample : TxSample)
  | write (now : Nat)
  | request (target : DriveState) (now : Nat)
deriving Repr

/-- The state transformer of one event. -/
def step (bus : Bus) (e : Event) (s : ElmoState) : ElmoState :=
  match e with
  | .read sample => updateRead bus sample s
  | .write now => (updateWrite now s).2
  | .request target now => requestStateChange target now s

/-- Run a sequence of events from an initial state. -/
def runEvents (bus : Bus) (evs : List Event) (s : ElmoState) : ElmoState :=
  evs.foldl (fun s e => step bus e s) s

/-- Whether an event, executed in state `s`, invokes
`engagePdoStateMachine`: only a cyclic write with the mode of operation
set, a pending state change, and a fresh reading does
(`Elmo.cpp` lines 32, 42-44). -/
def invokesEngine (e : Event) (s : ElmoState) : Bool :=
  match e with
  | .write _ =>
      !(s.modeOfOperation_ = .NA) && s.conductStateChange_ && s.hasRead_
  | _ => false

/-- Whether an event is a cyclic read. -/
def Event.isRead : Event → Bool
  | .read _ => true
  | _ => false

/-- The state after the first `n` events. -/
def stateAt (bus : Bus) (evs : List Event) (s : ElmoState) (n : Nat) :
    ElmoState :=
  runEvents bus (evs.take n) s

/-- Whether the `i`-th event of the trace invokes the engine. -/
def invokesEngineAt (bus : Bus) (evs : List Event) (s : ElmoState)
    (i : Nat) : Bool :=
  match evs[i]? with
  | some e => invokesEngine e (stateAt bus evs s i)
  | none => false

/-!
## Concrete base data (used by the closed witnesses/counterexamples)
-/

/-- A concrete configuration record. -/
def cfg0 : Configuration where
  motorRatedCurrentA := 10
  maxCurrentA := 20
  motorConstant := 1
  gearRatio := 1
  positionEncoderResolution := 4096
  rxPdoTypeEnum := .RxPdoStandard
  txPdoTypeEnum := .TxPdoStandard
  modeOfOperationEnum := .CyclicSynchronousPositionMode
  configRunSdoVerifyTimeout := 100
  driveStateChangeMinTimeout := 1000
  driveStateChangeMaxTimeout := 1000000
  minNumberOfSuccessfulTargetStateReadings := 3
  useMultipleModeOfOperations := false
  useRawCommands := false

/-- A concrete empty reading cache. -/
def reading0 : Reading where
  driveState := .SwitchOnDisabled
  actualPosition := 0
  actualVelocity := 0
  actualCurrent := 0
  busVoltage := 0
  digitalInputs := 0
  analogInput := 0
  errors := []
  faults := []

/-- A concrete idle controller state. -/
def s0 : ElmoState where
  reading := reading0
  configuration_ := cfg0
  modeOfOperation_ := .CyclicSynchronousPositionMode
  conductStateChange_ := false
  stateChangeSuccessful_ := false
  hasRead_ := false
  targetDriveState_ := .SwitchOnDisabled
  numberOfSuccessfulTargetStateReadings_ := 0
  controlword_ := ⟨none⟩
  currentRxPdoTypeEnum_ := .RxPdoStandard
  currentTxPdoTypeEnum_ := .TxPdoStandard
  driveStateChangeTimePoint_ := 0
  stagedCommand_ := ⟨0, 0, 0, 0, 0⟩
  allowModeChange_ := false
  pdoInfo_ := (0, 0)
  opCount := 0
  opLog := []

/-- A bus oracle whose operations all succeed. -/
def busTrue : Bus where
  result := fun _ => true
  readValue := fun _ => 7
  readState := fun _ => .SwitchOnDisabled
  hardwarePdoSizes := (32, 32)

/-!
## Shared helper lemmas
-/

/-- All bus results in the ordinal window `[start, start + len)` are
successes. -/
def busOk (bus : Bus) (start len : Nat) : Bool :=
  match len with
  | 0 => true
  | n + 1 => bus.result start && busOk bus (start + 1) n

theorem busOk_zero (bus : Bus) (start : Nat) : busOk bus start 0 = true := rfl

theorem busOk_succ (bus : Bus) (start len : Nat) :
    busOk bus start (len + 1)
      = (bus.result start && busOk bus (start + 1) len) := rfl

theorem busOk_eq_true_iff (bus : Bus) (start len : Nat) :
    busOk bus start len = true ↔
      ∀ i, i < len → bus.result (start + i) = true := by
  induction len generalizing start with
  | zero => simp [busOk]
  | succ n ih =>
      rw [busOk_succ, Bool.and_eq_true, ih]
      constructor
      · rintro ⟨h0, hrest⟩ i hi
        match i with
        | 0 => simpa using h0
        | j + 1 =>
            have := hrest j (by omega)
            simpa [Nat.add_assoc, Nat.add_comm 1 j] using this
      · intro h
        refine ⟨by simpa using h 0 (by omega), fun j hj => ?_⟩
        have := h (j + 1) (by omega)
        simpa [Nat.add_assoc, Nat.add_comm 1 j] using this

/-- Characterization of the `success &= stateTransitionViaSdo(...)` chain:
every controlword write in the list is issued (independently of any
result), and the accumulated Boolean is the conjunction of the incoming
accumulator with all consumed bus results. -/
theorem chainVia_spec (bus : Bus) (ts : List StateTransition) :
    ∀ (acc : Bool) (s : ElmoState),
      chainVia bus ts acc s
        = (acc && busOk bus s.opCount ts.length,
           { s with opCount := s.opCount + ts.length,
                    opLog := s.opLog
                      ++ ts.map (fun t => SdoOp.writeControlword ⟨some t⟩) }) := by
  induction ts with
  | nil => intro acc s; simp [chainVia, busOk]
  | cons t rest ih =>
      intro acc s
      rw [chainVia]
      simp only [stateTransitionViaSdo, setControlwordViaSdo, issueOp,
        Controlword.setStateTransition, ih, busOk_succ]
      refine Prod.ext ?_ ?_
      · simp [busOk_succ, Bool.and_assoc]
      · simp [Nat.add_assoc, Nat.add_comm 1 rest.length]

/-- Characterization of the `success &= sdoVerifyWrite(...)` chain. -/
theorem verifyChain_spec (bus : Bus) (ops : List (Nat × Nat × Int)) :
    ∀ (acc : Bool) (s : ElmoState),
      verifyChain bus ops acc s
        = (acc && busOk bus s.opCount ops.length,
           { s with opCount := s.opCount + ops.length,
                    opLog := s.opLog
                      ++ ops.map (fun o => SdoOp.verifyWrite o.1 o.2.1 o.2.2) }) := by
  induction ops with
  | nil => intro acc s; simp [verifyChain, busOk]
  | cons o rest ih =>
      intro acc s
      rw [verifyChain]
      simp only [sdoVerifyWrite, issueOp, ih, busOk_succ]
      refine Prod.ext ?_ ?_
      · simp [busOk_succ, Bool.and_assoc]
      · simp [Nat.add_assoc, Nat.add_comm 1 rest.length]

/-!
## C1 — the (requested, current) transition lookup
-/

/-- C1: for every requestable target state and every defined current state
with `requested ≠ current`, `getNextStateTransitionControlword` returns the
controlword whose bit pattern is exactly the one fixed standard transition
for that pair (the spec-side table `standardFirstTransition`), recording no
error; on the diagonal it records a `PdoStateTransitionError` and sets no
transition bits; for an undefined current state it likewise records a
`PdoStateTransitionError` and sets no transition bits. -/
theorem c1_nextTransitionControlword (s : ElmoState)
    (requested current : DriveState)
    (hreq : requestableState requested = true) :
    (definedState current = true → requested ≠ current →
        (getNextStateTransitionControlword requested current s).1.transition
            = standardFirstTransition requested current
        ∧ (standardFirstTransition requested current).isSome = true
        ∧ (getNextStateTransitionControlword requested current s).2 = s)
    ∧ (requested = current →
        (getNextStateTransitionControlword requested current s).1.transition
            = none
        ∧ (getNextStateTransitionControlword requested current s).2
            = addErrorToReading .PdoStateTransitionError s)
    ∧ (definedState current = false →
        (getNextStateTransitionControlword requested current s).1.transition
            = none
        ∧ (getNextStateTransitionControlword requested current s).2
            = addErrorToReading .PdoStateTransitionError s) := by
  cases requested <;> cases current <;>
    simp_all [requestableState, definedState, getNextStateTransitionControlword,
      pdoTransitionTable, standardFirstTransition, Controlword.setAllFalse,
      Controlword.setStateTransition]

/-- Witness for C1 at a concrete pair: requesting `ReadyToSwitchOn` from
`SwitchOnDisabled` yields exactly standard transition 2 and records no
error. -/
theorem c1_nextTransitionControlword_witness :
    (getNextStateTransitionControlword .ReadyToSwitchOn .SwitchOnDisabled
        s0).1.transition = some .t2
    ∧ (getNextStateTransitionControlword .ReadyToSwitchOn .SwitchOnDisabled
        s0).2 = s0 := by
  have h := (c1_nextTransitionControlword s0 .ReadyToSwitchOn
      .SwitchOnDisabled (by decide)).1 (by decide) (by decide)
  exact ⟨h.1.trans rfl, h.2.2⟩

/-!
## C7 — cyclic write with no mode of operation
-/

/-- C7: a cyclic write invoked while the mode of operation is `NA` hands no
process-data record to the bus, leaves the state-change engine untouched
(the whole state is unchanged except the error log), and records exactly
one `ModeOfOperationError` in the reading for that cycle. -/
theorem c7_updateWrite_modeOfOperation_na (now : Nat) (s : ElmoState)
    (h : s.modeOfOperation_ = .NA) :
    (updateWrite now s).1 = none
    ∧ (updateWrite now s).2.reading.errors
        = s.reading.errors ++ [ErrorType.ModeOfOperationError]
    ∧ (updateWrite now s).2.conductStateChange_ = s.conductStateChange_
    ∧ (updateWrite now s).2.stateChangeSuccessful_ = s.stateChangeSuccessful_
    ∧ (updateWrite now s).2.hasRead_ = s.hasRead_
    ∧ (updateWrite now s).2.numberOfSuccessfulTargetStateReadings_
        = s.numberOfSuccessfulTargetStateReadings_
    ∧ (updateWrite now s).2.controlword_ = s.controlword_
    ∧ (updateWrite now s).2
        = addErrorToReading .ModeOfOperationError s := by
  simp [updateWrite, h, addErrorToReading, Reading.addError]

/-- Witness for C7 at a concrete state. -/
theorem c7_updateWrite_modeOfOperation_na_witness :
    (updateWrite 0 { s0 with modeOfOperation_ := .NA }).1 = none
    ∧ (updateWrite 0 { s0 with modeOfOperation_ := .NA }).2.reading.errors
        = [ErrorType.ModeOfOperationError] := by
  have h := c7_updateWrite_modeOfOperation_na 0
      { s0 with modeOfOperation_ := .NA } rfl
  exact ⟨h.1, h.2.1.trans (by rfl)⟩

/-!
## C9 — Rx vs Tx PDO type errors (code bug)
-/

/-- C9: evaluating the code at the failing input.  `configureRxPdo` with
`NA` records an `RxPdoTypeError` and fails, as the claim states; but
`configureTxPdo` with `TxPdoTypeEnum::NA` also records an
`RxPdoTypeError` — not the `TxPdoTypeError` the claim (and the spec's
error taxonomy) prescribes — and fails.  The spec itself flags this
conflation in one branch of Tx configuration as a source slip (§9), so
the code contradicts the clear intent. -/
theorem c9_configureTxPdo_na_records_rxPdoTypeError :
    configureRxPdo .NA s0 = (false, addErrorToReading .RxPdoTypeError s0)
    ∧ configureTxPdo .NA s0 = (false, addErrorToReading .RxPdoTypeError s0)
    ∧ (configureTxPdo .NA s0).2.reading.errors = [ErrorType.RxPdoTypeError]
    ∧ (configureTxPdo .NA s0).2.reading.errors ≠ [ErrorType.TxPdoTypeError] := by
  refine ⟨rfl, rfl, rfl, ?_⟩
  decide

/-!
## C10 — `setDriveStateViaPdo` return values
-/

/-- The waiting loop returns `false` only by the timeout branch: either
some poll `m` saw the timeout exceeded with the success flag false at
every poll up to and including `m`, or the modelled fuel ran out with
every poll seeing a false flag and no timeout (i.e. the real unbounded
loop would still be spinning, not returning `false`). -/
theorem pdoWaitLoop_false_characterization (maxT : Nat) (flag : Nat → Bool)
    (elapsed : Nat → Nat) :
    ∀ (fuel k : Nat), pdoWaitLoop maxT flag elapsed fuel k = false →
      (∃ m, m < fuel ∧ maxT < elapsed (k + m)
        ∧ ∀ i, i ≤ m → flag (k + i) = false)
      ∨ (∀ i, i < fuel → flag (k + i) = false ∧ elapsed (k + i) ≤ maxT) := by
  intro fuel
  induction fuel with
  | zero => exact fun k _ => Or.inr (fun i hi => absurd hi (Nat.not_lt_zero i))
  | succ n ih =>
      intro k h
      rw [pdoWaitLoop] at h
      by_cases hf : flag k = true
      · simp [hf] at h
      · rw [Bool.not_eq_true] at hf
        by_cases ht : maxT < elapsed k
        · refine Or.inl ⟨0, Nat.succ_pos n, by simpa using ht, fun i hi => ?_⟩
          have hz : i = 0 := Nat.le_zero.mp hi
          subst hz; simpa using hf
        · rw [if_neg (by simp [hf]), if_neg ht] at h
          rcases ih (k + 1) h with ⟨m, hm, hel, hall⟩ | hall
          · refine Or.inl ⟨m + 1, by omega, ?_, fun i hi => ?_⟩
            · have hidx : k + (m + 1) = (k + 1) + m := by omega
              rw [hidx]; exact hel
            · match i with
              | 0 => simpa using hf
              | j + 1 =>
                  have hidx : k + (j + 1) = (k + 1) + j := by omega
                  rw [hidx]; exact hall j (by omega)
          · refine Or.inr (fun i hi => ?_)
            match i with
            | 0 => exact ⟨hf, Nat.not_lt.mp ht⟩
            | j + 1 =>
                have hidx : k + (j + 1) = (k + 1) + j := by omega
                rw [hidx]; exact hall j (by omega)

/-- C10: with `waitForState = false`, `setDriveStateViaPdo` always returns
`true` — regardless of the drive's behaviour — having set the pending
bookkeeping exactly (success flag cleared, pending flag set, target
stored, fresh-reading flag cleared, dwell timestamp reset to `now`).
With `waitForState = true` it can return `false` only via the timeout
branch of the polling loop: some poll saw the configured maximum timeout
exceeded with the success flag never observed true up to that poll (the
other disjunct is exhaustion of the modelled poll budget, standing for a
loop that has not yet returned at all). -/
theorem c10_setDriveStateViaPdo_returns (target : DriveState) (now : Nat)
    (flag : Nat → Bool) (elapsed : Nat → Nat) (fuel : Nat) (s : ElmoState) :
    (setDriveStateViaPdo target false now flag elapsed fuel s
        = (true, { s with stateChangeSuccessful_ := false,
                          conductStateChange_ := true,
                          targetDriveState_ := target,
                          hasRead_ := false,
                          driveStateChangeTimePoint_ := now }))
    ∧ ((setDriveStateViaPdo target true now flag elapsed fuel s).1 = false →
        (∃ m, m < fuel
          ∧ s.configuration_.driveStateChangeMaxTimeout < elapsed m
          ∧ ∀ i, i ≤ m → flag i = false)
        ∨ (∀ i, i < fuel → flag i = false
            ∧ elapsed i ≤ s.configuration_.driveStateChangeMaxTimeout)) := by
  constructor
  · simp [setDriveStateViaPdo, requestStateChange]
  · intro h
    have h' : pdoWaitLoop s.configuration_.driveStateChangeMaxTimeout flag
        elapsed fuel 0 = false := by
      simpa [setDriveStateViaPdo] using h
    simpa using pdoWaitLoop_false_characterization
      s.configuration_.driveStateChangeMaxTimeout flag elapsed fuel 0 h'

/-- Witness for C10: a concrete run of the `waitForState = true` variant
whose flag is never raised and whose clock passes the maximum timeout at
the second poll terminates by timeout. -/
theorem c10_setDriveStateViaPdo_returns_witness :
    (∃ m, m < 2 ∧ s0.configuration_.driveStateChangeMaxTimeout
        < 1000001 * m ∧ ∀ i, i ≤ m → (fun _ => false : Nat → Bool) i = false)
    ∨ (∀ i, i < 2 → (fun _ => false : Nat → Bool) i = false
        ∧ 1000001 * i ≤ s0.configuration_.driveStateChangeMaxTimeout) := by
  have h := (c10_setDriveStateViaPdo_returns .OperationEnabled 0
      (fun _ => false) (fun i => 1000001 * i) 2 s0).2
  exact h (by decide)

/-!
## C2 — abort behaviour of the blocking SDO state-change chain
-/

/-- Characterization of `setDriveStateViaSdo` when the (target, current)
pair has a transition chain: the status read and every controlword write
of the chain are issued unconditionally, and the returned Boolean is the
conjunction of the status-read result with all write results. -/
theorem setDriveStateViaSdo_spec_some (bus : Bus) (target : DriveState)
    (s : ElmoState) (ts : List StateTransition)
    (h : sdoChain target (bus.readState s.opCount) = some ts) :
    setDriveStateViaSdo bus target s
      = (bus.result s.opCount && busOk bus (s.opCount + 1) ts.length,
         { s with opCount := s.opCount + 1 + ts.length,
                  opLog := s.opLog ++ SdoOp.read OD_INDEX_STATUSWORD 0
                    :: ts.map (fun t => SdoOp.writeControlword ⟨some t⟩) }) := by
  simp [setDriveStateViaSdo, getStatuswordViaSdo, issueOp, h, chainVia_spec,
    Nat.add_assoc]

/-- Characterization of `setDriveStateViaSdo` on the `default` branches
(undefined current state or non-requestable target): only the status read
is issued, an `SdoStateTransitionError` is recorded, and the call fails. -/
theorem setDriveStateViaSdo_spec_none (bus : Bus) (target : DriveState)
    (s : ElmoState) (h : sdoChain target (bus.readState s.opCount) = none) :
    setDriveStateViaSdo bus target s
      = (false, addErrorToReading .SdoStateTransitionError
          { s with opCount := s.opCount + 1,
                   opLog := s.opLog ++ [SdoOp.read OD_INDEX_STATUSWORD 0] }) := by
  simp [setDriveStateViaSdo, getStatuswordViaSdo, issueOp, h]

/-- A bus whose first controlword write (operation ordinal 1) fails while
every other operation succeeds, reporting the drive in `Fault`. -/
def busFirstWriteFails : Bus where
  result := fun n => !(n == 1)
  readValue := fun _ => 0
  readState := fun _ => .Fault
  hardwarePdoSizes := (32, 32)

/-- Counterexample to C2 as stated: from current state `Fault` with target
`OperationEnabled` the chain is fault-reset then transitions 2, 3, 4; the
very first transition write (ordinal 1) fails, yet the remaining three
transition writes of the chain are still issued — `success &= ...` does
not short-circuit — so the claim that "the remaining transition writes of
the chain are not issued" is false at this input.  The call does return
`false`. -/
theorem c2_counterexample_chain_not_aborted :
    busFirstWriteFails.result 1 = false
    ∧ (setDriveStateViaSdo busFirstWriteFails .OperationEnabled s0).2.opLog
        = [SdoOp.read OD_INDEX_STATUSWORD 0,
           SdoOp.writeControlword ⟨some .t15⟩,
           SdoOp.writeControlword ⟨some .t2⟩,
           SdoOp.writeControlword ⟨some .t3⟩,
           SdoOp.writeControlword ⟨some .t4⟩]
    ∧ (setDriveStateViaSdo busFirstWriteFails .OperationEnabled s0).1
        = false := by
  refine ⟨rfl, rfl, rfl⟩

/-- C2 amended: if any intermediate transition write fails, the remaining
transition writes of the chain are **still issued** — the sequence of SDO
operations issued by `setDriveStateViaSdo` is a function of the target
and the decoded current state alone, independent of every operation
result — but the call does return `false` whenever the status read or any
transition write fails (equivalently: it returns `true` only if every
operation it issued succeeded). -/
theorem c2_setDriveStateViaSdo_amended (bus : Bus) (target : DriveState)
    (s : ElmoState) :
    ((setDriveStateViaSdo bus target s).2.opLog
        = s.opLog ++ SdoOp.read OD_INDEX_STATUSWORD 0
            :: ((sdoChain target (bus.readState s.opCount)).getD []).map
                (fun t => SdoOp.writeControlword ⟨some t⟩))
    ∧ ((setDriveStateViaSdo bus target s).1 = true →
        ∀ n, s.opCount ≤ n →
          n < (setDriveStateViaSdo bus target s).2.opCount →
          bus.result n = true) := by
  cases h : sdoChain target (bus.readState s.opCount) with
  | none =>
      rw [setDriveStateViaSdo_spec_none bus target s h]
      simp [addErrorToReading, Reading.addError]
  | some ts =>
      rw [setDriveStateViaSdo_spec_some bus target s ts h]
      refine ⟨by simp, ?_⟩
      intro hres n hn1 hn2
      simp only at hres hn2
      rw [Bool.and_eq_true] at hres
      rcases Nat.lt_or_ge n (s.opCount + 1) with hlt | hge
      · have : n = s.opCount := by omega
        subst this; exact hres.1
      · have hidx : n = (s.opCount + 1) + (n - (s.opCount + 1)) := by omega
        rw [hidx]
        exact (busOk_eq_true_iff bus (s.opCount + 1) ts.length).mp hres.2
          (n - (s.opCount + 1)) (by omega)

/-- Witness for C2's amended theorem: a fully successful bus at current
state `Fault`, target `OperationEnabled` — the result is `true` and
indeed every consumed operation result is `true` (checked at ordinal 3). -/
theorem c2_setDriveStateViaSdo_amended_witness :
    Bus.result { result := fun _ => true, readValue := fun _ => 0,
                 readState := fun _ => .Fault,
                 hardwarePdoSizes := (32, 32) } 3 = true := by
  have h := (c2_setDriveStateViaSdo_amended
      { result := fun _ => true, readValue := fun _ => 0,
        readState := fun _ => .Fault, hardwarePdoSizes := (32, 32) }
      .OperationEnabled s0).2
  exact h (by decide) 3 (by decide) (by decide)

/-!
## C8 — fault read-back on the cyclic read path
-/

/-- A telemetry sample with all-zero analog values and the given decoded
drive state. -/
def sample0 (d : DriveState) : TxSample :=
  ⟨0, 0, 0, 0, 0, 0, 0, d⟩

/-- C8: on a cyclic read whose decoded drive state is `Fault`, exactly one
additional blocking SDO read of the error-code object is issued: if it
succeeds, exactly one new fault entry (the read value) is appended to the
fault history and no `ErrorReadingError` is recorded; if it fails, an
`ErrorReadingError` is recorded and no fault entry is appended.  If the
decoded state is not `Fault`, neither happens and no extra operation is
issued. -/
theorem c8_updateRead_fault_read (bus : Bus) (sample : TxSample)
    (s : ElmoState) :
    ((updateReadDecode sample s).reading.driveState = .Fault →
      (bus.result (updateReadDecode sample s).opCount = true →
        updateRead bus sample s
          = { updateReadDecode sample s with
                reading := (updateReadDecode sample s).reading.addFault
                  (bus.readValue (updateReadDecode sample s).opCount),
                opCount := (updateReadDecode sample s).opCount + 1,
                opLog := (updateReadDecode sample s).opLog
                  ++ [SdoOp.read OD_INDEX_ERROR_CODE 0] })
      ∧ (bus.result (updateReadDecode sample s).opCount = false →
        updateRead bus sample s
          = addErrorToReading .ErrorReadingError
              { updateReadDecode sample s with
                  opCount := (updateReadDecode sample s).opCount + 1,
                  opLog := (updateReadDecode sample s).opLog
                    ++ [SdoOp.read OD_INDEX_ERROR_CODE 0] }))
    ∧ ((updateReadDecode sample s).reading.driveState ≠ .Fault →
        updateRead bus sample s = updateReadDecode sample s) := by
  unfold updateRead
  refine ⟨fun hf => ⟨fun hr => ?_, fun hr => ?_⟩, fun hnf => ?_⟩
  · simp [hf, issueOp, hr]
  · simp [hf, issueOp, hr]
  · simp [hnf]

/-- Witness for C8 at a concrete faulting sample on an all-successful bus:
one fault entry (the read value 7) is appended and no error is recorded. -/
theorem c8_updateRead_fault_read_witness :
    (updateRead busTrue (sample0 .Fault) s0).reading.faults = [7]
    ∧ (updateRead busTrue (sample0 .Fault) s0).reading.errors = [] := by
  have h := ((c8_updateRead_fault_read busTrue (sample0 .Fault) s0).1
      (by decide)).1 (by decide)
  rw [h]
  exact ⟨rfl, rfl⟩

/-!
## C6 — `mapPdos` with an unassigned record type
-/

/-- The object-dictionary index an SDO operation addresses. -/
def SdoOp.targetIndex : SdoOp → Nat
  | .read i _ => i
  | .writeControlword _ => OD_INDEX_CONTROLWORD
  | .verifyWrite i _ _ => i
  | .verifyWriteMode i _ _ => i

/-- C6: `mapPdos` with the rx record type `NA` records a `PdoMappingError`,
issues no mailbox write addressing the rx PDO assignment object, and
returns `false`; symmetrically, with the tx record type `NA` it records a
`TxPdoMappingError`, issues no mailbox write addressing the tx PDO
assignment object, and returns `false` (in both cases for any selection
on the other side). -/
theorem c6_mapPdos_na_type (bus : Bus) (s : ElmoState)
    (rx : RxPdoTypeEnum) (tx : TxPdoTypeEnum) :
    ((mapPdos bus .NA tx s).1 = false
      ∧ (mapPdos bus .NA tx s).2.reading.errors.count .PdoMappingError
          = s.reading.errors.count .PdoMappingError + 1
      ∧ ((mapPdos bus .NA tx s).2.opLog.drop s.opLog.length).all
          (fun op => op.targetIndex != OD_INDEX_RX_PDO_ASSIGNMENT) = true)
    ∧ ((mapPdos bus rx .NA s).1 = false
      ∧ (mapPdos bus rx .NA s).2.reading.errors.count .TxPdoMappingError
          = s.reading.errors.count .TxPdoMappingError + 1
      ∧ ((mapPdos bus rx .NA s).2.opLog.drop s.opLog.length).all
          (fun op => op.targetIndex != OD_INDEX_TX_PDO_ASSIGNMENT) = true) := by
  constructor
  · cases tx <;>
      (simp only [mapPdos, rxMapOps, txMapOps, verifyChain_spec,
        configureTxPdo, configureRxPdo]
       split_ifs <;>
        simp [addErrorToReading, Reading.addError, SdoOp.targetIndex,
          OD_INDEX_RX_PDO_ASSIGNMENT, OD_INDEX_TX_PDO_ASSIGNMENT,
          List.count_append, List.drop_left])
  · cases rx <;>
      (simp only [mapPdos, rxMapOps, txMapOps, verifyChain_spec,
        configureTxPdo, configureRxPdo]
       split_ifs <;>
        simp [addErrorToReading, Reading.addError, SdoOp.targetIndex,
          OD_INDEX_RX_PDO_ASSIGNMENT, OD_INDEX_TX_PDO_ASSIGNMENT,
          List.count_append, List.drop_left])

/-!
## C3 — the consecutive-success counter of the state-change engine
-/

/-- The state side of the transition lookup either is unchanged (a
transition was found) or has one `PdoStateTransitionError` recorded. -/
theorem getNextStateTransitionControlword_snd (req cur : DriveState)
    (s : ElmoState) :
    (getNextStateTransitionControlword req cur s).2 = s
    ∨ (getNextStateTransitionControlword req cur s).2
        = addErrorToReading .PdoStateTransitionError s := by
  unfold getNextStateTransitionControlword
  cases pdoTransitionTable req cur <;> simp

/-- A controller state with a pending change to `OperationEnabled`
(threshold: `cfg0`'s three successful target-state readings). -/
def sPending : ElmoState :=
  { s0 with conductStateChange_ := true,
            targetDriveState_ := .OperationEnabled }

/-- Counterexample to C3 as stated: with threshold 3, run four cyclic
read/write pairs whose evaluated readings decode to `OperationEnabled`,
`OperationEnabled`, `SwitchOnDisabled`, `OperationEnabled`.  The third
reading does not equal the target, so under the claim ("a reading whose
decoded state does not equal the target resets the count, and success is
declared only when that many most-recently-evaluated readings in a row
all equal the target") the count after the fourth evaluation would be 1
and success must not yet be declared.  The code declares success: the
counter is never reset on a mismatch, so it counts total, not
consecutive, matches. -/
theorem c3_counterexample_success_without_consecutive_readings :
    (runEvents busTrue
      [.read (sample0 .OperationEnabled), .write 0,
       .read (sample0 .OperationEnabled), .write 0,
       .read (sample0 .SwitchOnDisabled), .write 0,
       .read (sample0 .OperationEnabled), .write 0]
      sPending).stateChangeSuccessful_ = true
    ∧ (runEvents busTrue
      [.read (sample0 .OperationEnabled), .write 0,
       .read (sample0 .OperationEnabled), .write 0,
       .read (sample0 .SwitchOnDisabled), .write 0,
       .read (sample0 .OperationEnabled), .write 0]
      sPending).conductStateChange_ = false
    ∧ sPending.configuration_.minNumberOfSuccessfulTargetStateReadings = 3
    ∧ (sample0 .SwitchOnDisabled).driveStateDecoded
        ≠ sPending.targetDriveState_ := by
  refine ⟨by decide, by decide, by decide, by decide⟩

/-- C3 amended: while a change is pending, the engine's success counter
counts the **total** number of evaluated readings equal to the target —
an evaluated reading whose decoded state does not equal the target leaves
the counter unchanged (it is not reset) — and the request is marked
successful once the incremented counter reaches the configured minimum:
then the pending flag is cleared and the counter returns to zero. -/
theorem c3_engagePdoStateMachine_amended (now : Nat) (s : ElmoState) :
    (s.reading.driveState = s.targetDriveState_ →
      (s.configuration_.minNumberOfSuccessfulTargetStateReadings
          ≤ s.numberOfSuccessfulTargetStateReadings_ + 1 →
        engagePdoStateMachine now s
          = { s with conductStateChange_ := false,
                     numberOfSuccessfulTargetStateReadings_ := 0,
                     stateChangeSuccessful_ := true })
      ∧ (s.numberOfSuccessfulTargetStateReadings_ + 1
          < s.configuration_.minNumberOfSuccessfulTargetStateReadings →
        engagePdoStateMachine now s
          = { s with numberOfSuccessfulTargetStateReadings_ :=
                       s.numberOfSuccessfulTargetStateReadings_ + 1,
                     hasRead_ := false }))
    ∧ (s.reading.driveState ≠ s.targetDriveState_ →
        (engagePdoStateMachine now s).numberOfSuccessfulTargetStateReadings_
            = s.numberOfSuccessfulTargetStateReadings_
        ∧ (engagePdoStateMachine now s).stateChangeSuccessful_
            = s.stateChangeSuccessful_
        ∧ (engagePdoStateMachine now s).conductStateChange_
            = s.conductStateChange_
        ∧ (engagePdoStateMachine now s).hasRead_ = false) := by
  refine ⟨fun hm => ⟨fun hge => ?_, fun hlt => ?_⟩, fun hne => ?_⟩
  · simp only [engagePdoStateMachine]
    rw [if_pos hm, if_pos hge]
  · simp only [engagePdoStateMachine]
    rw [if_pos hm, if_neg (Nat.not_le.mpr hlt)]
  · have hsnd := getNextStateTransitionControlword_snd s.targetDriveState_
      s.reading.driveState s
    simp only [engagePdoStateMachine]
    rw [if_neg hne]
    split_ifs with hd
    · rcases hsnd with h | h <;> rw [h] <;>
        simp [addErrorToReading, Reading.addError]
    · simp

/-- Witness for C3's amended theorem: with the counter at 2 and threshold
3, a third matching reading declares success, clears the pending flag and
zeroes the counter. -/
theorem c3_engagePdoStateMachine_amended_witness :
    (engagePdoStateMachine 0
      { sPending with
          reading := { reading0 with driveState := .OperationEnabled },
          hasRead_ := true,
          numberOfSuccessfulTargetStateReadings_ := 2 }).stateChangeSuccessful_
        = true
    ∧ (engagePdoStateMachine 0
      { sPending with
          reading := { reading0 with driveState := .OperationEnabled },
          hasRead_ := true,
          numberOfSuccessfulTargetStateReadings_ := 2 }).conductStateChange_
        = false
    ∧ (engagePdoStateMachine 0
      { sPending with
          reading := { reading0 with driveState := .OperationEnabled },
          hasRead_ := true,
          numberOfSuccessfulTargetStateReadings_ := 2
      }).numberOfSuccessfulTargetStateReadings_ = 0 := by
  have h := ((c3_engagePdoStateMachine_amended 0
      { sPending with
          reading := { reading0 with driveState := .OperationEnabled },
          hasRead_ := true,
          numberOfSuccessfulTargetStateReadings_ := 2 }).1
      (by decide)).1 (by decide)
  rw [h]
  exact ⟨rfl, rfl, rfl⟩

/-!
## C4 — no telemetry sample is evaluated twice by the engine
-/

/-- Whether the `k`-th event of a trace is a cyclic read. -/
def isReadAt (evs : List Event) (k : Nat) : Bool :=
  match evs[k]? with
  | some e => e.isRead
  | none => false

/-- The invariant holding right after an engine run: the fresh-reading
flag is down, or the pending flag is down (the success path). -/
def freshnessInvariant (s : ElmoState) : Prop :=
  s.hasRead_ = false ∨ s.conductStateChange_ = false

/-- Counterexample to C4 as stated: a call to `engagePdoStateMachine` on
the success path (three matching readings accumulated, threshold 3)
returns with `hasRead_` still `true` — the early `return` skips the
trailing `hasRead_ = false;` — refuting "every call to
`engagePdoStateMachine` clears the fresh-reading flag before
returning". -/
theorem c4_counterexample_hasRead_kept_on_success :
    ({ sPending with
        reading := { reading0 with driveState := .OperationEnabled },
        hasRead_ := true,
        numberOfSuccessfulTargetStateReadings_ := 2 } : ElmoState).hasRead_
        = true
    ∧ (engagePdoStateMachine 0
        { sPending with
            reading := { reading0 with driveState := .OperationEnabled },
            hasRead_ := true,
            numberOfSuccessfulTargetStateReadings_ := 2 }).hasRead_
        = true := by
  refine ⟨by decide, by decide⟩

/-- Every engine run re-establishes the freshness invariant: all
non-success paths clear `hasRead_`; the success path clears
`conductStateChange_` instead. -/
theorem engagePdoStateMachine_freshnessInvariant (now : Nat) (s : ElmoState) :
    freshnessInvariant (engagePdoStateMachine now s) := by
  simp only [freshnessInvariant, engagePdoStateMachine]
  split_ifs with hm hge hd
  · right; rfl
  · left; rfl
  · left; rfl
  · left; rfl

/-- An event only invokes the engine when both flags are up. -/
theorem invokesEngine_flags (e : Event) (s : ElmoState)
    (h : invokesEngine e s = true) :
    s.hasRead_ = true ∧ s.conductStateChange_ = true := by
  cases e with
  | read sample => exact absurd h (by simp [invokesEngine])
  | request target now => exact absurd h (by simp [invokesEngine])
  | write now =>
      simp only [invokesEngine, Bool.and_eq_true] at h
      exact ⟨h.2, h.1.2⟩

/-- The cyclic write never raises the fresh-reading flag. -/
theorem updateWrite_hasRead (now : Nat) (s : ElmoState)
    (h : (updateWrite now s).2.hasRead_ = true) : s.hasRead_ = true := by
  by_cases hna : s.modeOfOperation_ = .NA
  · simpa [updateWrite, hna, addErrorToReading] using h
  · by_cases hc : s.conductStateChange_ && s.hasRead_
    · simp only [Bool.and_eq_true] at hc
      exact hc.2
    · rw [updateWrite, if_neg hna, if_neg hc] at h
      cases hrx : s.currentRxPdoTypeEnum_ <;>
        simpa [hrx, addErrorToReading] using h

/-- An event that invokes the engine leaves the freshness invariant. -/
theorem invoked_step_freshnessInvariant (bus : Bus) (e : Event)
    (s : ElmoState) (h : invokesEngine e s = true) :
    freshnessInvariant (step bus e s) := by
  cases e with
  | read sample => exact absurd h (by simp [invokesEngine])
  | request target now => exact absurd h (by simp [invokesEngine])
  | write now =>
      have hflags := invokesEngine_flags (.write now) s h
      have hna' : ¬s.modeOfOperation_ = .NA := by
        simp only [invokesEngine, Bool.and_eq_true] at h
        simpa using h.1.1
      have hguard : (s.conductStateChange_ && s.hasRead_) = true := by
        rw [hflags.2, hflags.1]; rfl
      have hpost := engagePdoStateMachine_freshnessInvariant now s
      show freshnessInvariant (updateWrite now s).2
      unfold updateWrite
      rw [if_neg hna', if_pos hguard]
      rcases hpost with hp | hp <;>
        cases hrx : (engagePdoStateMachine now s).currentRxPdoTypeEnum_ <;>
          simp [hrx, freshnessInvariant, addErrorToReading, hp]

/-- A non-read event preserves the freshness invariant. -/
theorem step_preserves_freshnessInvariant (bus : Bus) (e : Event)
    (s : ElmoState) (hnr : e.isRead = false) (h : freshnessInvariant s) :
    freshnessInvariant (step bus e s) := by
  cases e with
  | read sample => exact absurd hnr (by simp [Event.isRead])
  | request target now =>
      left
      simp [step, requestStateChange]
  | write now =>
      have hguard : (s.conductStateChange_ && s.hasRead_) = false := by
        rcases h with h | h <;> simp [h]
      show freshnessInvariant (updateWrite now s).2
      by_cases hna : s.modeOfOperation_ = .NA
      · simpa [updateWrite, hna, freshnessInvariant, addErrorToReading]
          using h
      · unfold updateWrite
        rw [if_neg hna, if_neg (show ¬(s.conductStateChange_ && s.hasRead_)
              = true by simp [hguard])]
        cases hrx : s.currentRxPdoTypeEnum_ <;>
          simpa [hrx, freshnessInvariant, addErrorToReading] using h

/-- Unfolding one step of a trace. -/
theorem stateAt_succ (bus : Bus) (evs : List Event) (s : ElmoState)
    (n : Nat) :
    stateAt bus evs s (n + 1)
      = (match evs[n]? with
         | some e => step bus e (stateAt bus evs s n)
         | none => stateAt bus evs s n) := by
  unfold stateAt runEvents
  rw [List.take_succ, List.foldl_append]
  cases h : evs[n]? <;> simp [h]

/-- C4 amended: every call to `engagePdoStateMachine` either clears the
fresh-reading flag or (on the success path) clears the pending flag; no
event other than a cyclic read can raise the fresh-reading flag; and
`updateWrite` invokes the engine only when both the pending and the
fresh-reading flag are set — so between any two engine invocations in a
trace there is at least one cyclic read. -/
theorem c4_engine_never_reevaluates_sample :
    (∀ (now : Nat) (s : ElmoState),
        (engagePdoStateMachine now s).hasRead_ = false
        ∨ (engagePdoStateMachine now s).conductStateChange_ = false)
    ∧ (∀ (bus : Bus) (e : Event) (s : ElmoState),
        e.isRead = false → (step bus e s).hasRead_ = true →
          s.hasRead_ = true)
    ∧ (∀ (bus : Bus) (evs : List Event) (s : ElmoState) (i j : Nat),
        i < j →
        invokesEngineAt bus evs s i = true →
        invokesEngineAt bus evs s j = true →
        ∃ k, i < k ∧ k < j ∧ isReadAt evs k = true) := by
  refine ⟨engagePdoStateMachine_freshnessInvariant, ?_, ?_⟩
  · intro bus e s hnr h
    cases e with
    | read sample => exact absurd hnr (by simp [Event.isRead])
    | request target now => simp [step, requestStateChange] at h
    | write now => exact updateWrite_hasRead now s h
  · intro bus evs s i j hij hi hj
    by_contra hno
    push_neg at hno
    have hno' : ∀ k, i < k → k < j → isReadAt evs k = false := by
      intro k h1 h2
      have := hno k h1 h2
      simpa using this
    -- unpack the invocation at i
    rw [invokesEngineAt] at hi
    rcases hei : evs[i]? with _ | ei
    · rw [hei] at hi; exact absurd hi (by simp)
    rw [hei] at hi
    -- the invariant holds from i+1 up to j
    have key : ∀ d, i + 1 + d ≤ j →
        freshnessInvariant (stateAt bus evs s (i + 1 + d)) := by
      intro d
      induction d with
      | zero =>
          intro _
          rw [Nat.add_zero, stateAt_succ, hei]
          exact invoked_step_freshnessInvariant bus ei _ hi
      | succ m ih =>
          intro hle
          have hP := ih (by omega)
          have hstep := stateAt_succ bus evs s (i + 1 + m)
          rcases hev : evs[i + 1 + m]? with _ | e
          · rw [hev] at hstep
            rw [show i + 1 + (m + 1) = i + 1 + m + 1 by omega, hstep]
            exact hP
          · rw [hev] at hstep
            have hnr : e.isRead = false := by
              have := hno' (i + 1 + m) (by omega) (by omega)
              rw [isReadAt, hev] at this
              exact this
            rw [show i + 1 + (m + 1) = i + 1 + m + 1 by omega, hstep]
            exact step_preserves_freshnessInvariant bus e _ hnr hP
    have hPj : freshnessInvariant (stateAt bus evs s j) := by
      have := key (j - i - 1) (by omega)
      rwa [show i + 1 + (j - i - 1) = j by omega] at this
    -- the invocation at j needs both flags up
    rw [invokesEngineAt] at hj
    rcases hej : evs[j]? with _ | ej
    · rw [hej] at hj; exact absurd hj (by simp)
    rw [hej] at hj
    have hflags := invokesEngine_flags ej (stateAt bus evs s j) hj
    rcases hPj with h | h
    · rw [hflags.1] at h; exact Bool.noConfusion h
    · rw [hflags.2] at h; exact Bool.noConfusion h

/-- Witness for C4's trace theorem: in the concrete trace
write–read–write, both writes invoke the engine and the event strictly
between them is a read. -/
theorem c4_engine_never_reevaluates_sample_witness :
    ∃ k, 0 < k ∧ k < 2
      ∧ isReadAt [Event.write 0, Event.read (sample0 .SwitchOnDisabled),
          Event.write 0] k = true := by
  have h := c4_engine_never_reevaluates_sample.2.2 busTrue
      [Event.write 0, Event.read (sample0 .SwitchOnDisabled), Event.write 0]
      { sPending with hasRead_ := true } 0 2
      (by decide) (by decide) (by decide)
  exact h

/-!
## C5 — pre-operational configuration aggregation

Characterization infrastructure: the exact operation list and success
formula of each configuration step, as functions of the oracle's
read-side only (`readValue`/`readState`) — never of `result` — making the
absence of any early abort explicit.
-/

/-- The operations issued by `setDriveStateViaSdo`: the statusword read
followed by the (possibly empty) transition chain for the pair. -/
def sdoStateOps (target cur : DriveState) : List SdoOp :=
  SdoOp.read OD_INDEX_STATUSWORD 0
    :: ((sdoChain target cur).getD []).map
        (fun t => SdoOp.writeControlword ⟨some t⟩)

/-- The operations issued by `mapPdos`: the rx-side assignment writes then
the tx-side assignment writes (each empty for an `NA` selection). -/
def mapPdosOps (rx : RxPdoTypeEnum) (tx : TxPdoTypeEnum) : List SdoOp :=
  ((rxMapOps rx).getD []).map (fun o => SdoOp.verifyWrite o.1 o.2.1 o.2.2)
    ++ ((txMapOps tx).getD []).map (fun o => SdoOp.verifyWrite o.1 o.2.1 o.2.2)

theorem setDriveStateViaSdo_opLog (bus : Bus) (target : DriveState)
    (s : ElmoState) :
    (setDriveStateViaSdo bus target s).2.opLog
      = s.opLog ++ sdoStateOps target (bus.readState s.opCount) := by
  cases h : sdoChain target (bus.readState s.opCount) with
  | some ts =>
      rw [setDriveStateViaSdo_spec_some bus target s ts h]
      simp [sdoStateOps, h]
  | none =>
      rw [setDriveStateViaSdo_spec_none bus target s h]
      simp [sdoStateOps, h, addErrorToReading, Reading.addError]

theorem setDriveStateViaSdo_opCount (bus : Bus) (target : DriveState)
    (s : ElmoState) :
    (setDriveStateViaSdo bus target s).2.opCount
      = s.opCount + 1
          + ((sdoChain target (bus.readState s.opCount)).getD []).length := by
  cases h : sdoChain target (bus.readState s.opCount) with
  | some ts =>
      rw [setDriveStateViaSdo_spec_some bus target s ts h]
      simp [h]
  | none =>
      rw [setDriveStateViaSdo_spec_none bus target s h]
      simp [h, addErrorToReading, Reading.addError]

theorem setDriveStateViaSdo_config (bus : Bus) (target : DriveState)
    (s : ElmoState) :
    (setDriveStateViaSdo bus target s).2.configuration_
      = s.configuration_ := by
  cases h : sdoChain target (bus.readState s.opCount) with
  | some ts => rw [setDriveStateViaSdo_spec_some bus target s ts h]
  | none => rw [setDriveStateViaSdo_spec_none bus target s h]; rfl

theorem setDriveStateViaSdo_countConfigErr (bus : Bus) (target : DriveState)
    (s : ElmoState) :
    (setDriveStateViaSdo bus target s).2.reading.errors.count
        ErrorType.ConfigurationError
      = s.reading.errors.count ErrorType.ConfigurationError := by
  cases h : sdoChain target (bus.readState s.opCount) with
  | some ts => rw [setDriveStateViaSdo_spec_some bus target s ts h]
  | none =>
      rw [setDriveStateViaSdo_spec_none bus target s h]
      simp [addErrorToReading, Reading.addError, List.count_append]

theorem setDriveStateViaSdo_fst (bus : Bus) (target : DriveState)
    (s : ElmoState) :
    (setDriveStateViaSdo bus target s).1
      = (sdoChain target (bus.readState s.opCount)).elim false
          (fun ts => bus.result s.opCount
            && busOk bus (s.opCount + 1) ts.length) := by
  cases h : sdoChain target (bus.readState s.opCount) with
  | some ts => rw [setDriveStateViaSdo_spec_some bus target s ts h]; rfl
  | none => rw [setDriveStateViaSdo_spec_none bus target s h]; rfl

set_option maxHeartbeats 1600000 in
theorem mapPdos_opLog (bus : Bus) (rx : RxPdoTypeEnum) (tx : TxPdoTypeEnum)
    (s : ElmoState) :
    (mapPdos bus rx tx s).2.opLog = s.opLog ++ mapPdosOps rx tx := by
  cases rx <;> cases tx <;>
    (simp only [mapPdos, rxMapOps, txMapOps, verifyChain_spec,
       configureRxPdo, configureTxPdo]
     split_ifs <;>
       simp [mapPdosOps, rxMapOps, txMapOps, addErrorToReading,
         Reading.addError])

set_option maxHeartbeats 1600000 in
theorem mapPdos_opCount (bus : Bus) (rx : RxPdoTypeEnum) (tx : TxPdoTypeEnum)
    (s : ElmoState) :
    (mapPdos bus rx tx s).2.opCount
      = s.opCount + (mapPdosOps rx tx).length := by
  cases rx <;> cases tx <;>
    (simp only [mapPdos, rxMapOps, txMapOps, verifyChain_spec,
       configureRxPdo, configureTxPdo]
     split_ifs <;>
       simp [mapPdosOps, rxMapOps, txMapOps, addErrorToReading,
         Reading.addError])

set_option maxHeartbeats 1600000 in
theorem mapPdos_config (bus : Bus) (rx : RxPdoTypeEnum) (tx : TxPdoTypeEnum)
    (s : ElmoState) :
    (mapPdos bus rx tx s).2.configuration_ = s.configuration_ := by
  cases rx <;> cases tx <;>
    (simp only [mapPdos, rxMapOps, txMapOps, verifyChain_spec,
       configureRxPdo, configureTxPdo]
     split_ifs <;>
       simp [addErrorToReading, Reading.addError])

set_option maxHeartbeats 1600000 in
theorem mapPdos_countConfigErr (bus : Bus) (rx : RxPdoTypeEnum)
    (tx : TxPdoTypeEnum) (s : ElmoState) :
    (mapPdos bus rx tx s).2.reading.errors.count
        ErrorType.ConfigurationError
      = s.reading.errors.count ErrorType.ConfigurationError := by
  cases rx <;> cases tx <;>
    (simp only [mapPdos, rxMapOps, txMapOps, verifyChain_spec,
       configureRxPdo, configureTxPdo]
     split_ifs <;>
       simp [addErrorToReading, Reading.addError, List.count_append])

set_option maxHeartbeats 1600000 in
theorem mapPdos_fst (bus : Bus) (rx : RxPdoTypeEnum) (tx : TxPdoTypeEnum)
    (s : ElmoState) :
    (mapPdos bus rx tx s).1
      = (((txMapOps tx).isSome
            && busOk bus (s.opCount + ((rxMapOps rx).getD []).length)
                ((txMapOps tx).getD []).length)
         && ((rxMapOps rx).isSome
            && busOk bus s.opCount ((rxMapOps rx).getD []).length)) := by
  cases rx <;> cases tx <;>
    (simp only [mapPdos, rxMapOps, txMapOps, verifyChain_spec,
       configureRxPdo, configureTxPdo]
     split_ifs <;>
       simp_all [rxMapOps, txMapOps, Bool.and_comm, Bool.and_assoc,
         Bool.and_left_comm])

/-- The full operation list issued by `runPreopConfiguration` from
operation ordinal `c0` under configuration `cfg`.  It consumes only the
read side of the bus oracle (`rv` = `readValue`, `rs` = `readState`),
never any operation's success result: every configuration step's
operations are issued even after an earlier step fails. -/
def preopOps (rv : Nat → Nat) (rs : Nat → DriveState) (c0 : Nat)
    (cfg : Configuration) : List SdoOp :=
  let pre : List SdoOp :=
    if cfg.motorRatedCurrentA = 0 then [.read OD_INDEX_MOTOR_RATED_CURRENT 0]
    else []
  let ratedA : ℚ :=
    if cfg.motorRatedCurrentA = 0 then ((rv c0 : ℚ) / 1000)
    else cfg.motorRatedCurrentA
  pre
    ++ sdoStateOps .ReadyToSwitchOn (rs (c0 + pre.length))
    ++ mapPdosOps cfg.rxPdoTypeEnum cfg.txPdoTypeEnum
    ++ [.verifyWriteMode OD_INDEX_MODES_OF_OPERATION 0 cfg.modeOfOperationEnum,
        .verifyWrite OD_INDEX_MOTOR_RATED_CURRENT 0 (round (1000 * ratedA)),
        .verifyWrite OD_INDEX_MOTOR_RATED_TORQUE 0 (round (1000 * ratedA)),
        .verifyWrite OD_INDEX_MAX_CURRENT 0 ⌊1000 * cfg.maxCurrentA⌋]

/-- The success value of `runPreopConfiguration` from operation ordinal
`c0` under configuration `cfg`: the conjunction, in order, of every
configuration step's own result — the optional rated-current read, the
blocking state change (undefined pairs fail structurally), the PDO
mapping of both sides (`NA` selections fail structurally), the
mode-of-operation verify-write, the two rated-value verify-writes and the
maximum-current verify-write. -/
def preopSuccessFormula (bus : Bus) (c0 : Nat) (cfg : Configuration) :
    Bool :=
  let preLen : Nat := if cfg.motorRatedCurrentA = 0 then 1 else 0
  let r0 : Bool :=
    if cfg.motorRatedCurrentA = 0 then true && bus.result c0 else true
  let c1 := c0 + preLen
  let chain := sdoChain .ReadyToSwitchOn (bus.readState c1)
  let r1 : Bool := chain.elim false
      (fun ts => bus.result c1 && busOk bus (c1 + 1) ts.length)
  let c2 := c1 + 1 + (chain.getD []).length
  let rxLen := ((rxMapOps cfg.rxPdoTypeEnum).getD []).length
  let txLen := ((txMapOps cfg.txPdoTypeEnum).getD []).length
  let r2 : Bool :=
    ((txMapOps cfg.txPdoTypeEnum).isSome && busOk bus (c2 + rxLen) txLen)
      && ((rxMapOps cfg.rxPdoTypeEnum).isSome && busOk bus c2 rxLen)
  let c3 := c2 + rxLen + txLen
  r0 && r1 && r2 && bus.result c3 && bus.result (c3 + 1)
    && bus.result (c3 + 2) && bus.result (c3 + 3)

/-- C5: `runPreopConfiguration` issues the operations of **every**
configuration step regardless of earlier failures (`preopOps` is a
function of the oracle's read side only — no operation result can shorten
it); returns exactly the conjunction of all the step results
(`preopSuccessFormula`); and records a `ConfigurationError` in the
reading if and only if the aggregate is false (the sub-steps themselves
never record a `ConfigurationError`). -/
theorem c5_runPreopConfiguration_aggregation (bus : Bus) (s : ElmoState) :
    ((runPreopConfiguration bus s).2.opLog
        = s.opLog
          ++ preopOps bus.readValue bus.readState s.opCount
              s.configuration_)
    ∧ ((runPreopConfiguration bus s).1
        = preopSuccessFormula bus s.opCount s.configuration_)
    ∧ ((runPreopConfiguration bus s).2.reading.errors.count
          ErrorType.ConfigurationError
        = s.reading.errors.count ErrorType.ConfigurationError
          + (if (runPreopConfiguration bus s).1 = true then 0 else 1)) := by
  refine ⟨?_, ?_, ?_⟩ <;>
    [skip; skip; skip] <;>
    by_cases hA : s.configuration_.motorRatedCurrentA = 0 <;>
      simp only [runPreopConfiguration, hA, if_pos, issueOp,
        sdoVerifyWrite, autoConfigurePdoSizes] <;>
      simp only [setDriveStateViaSdo_opLog, setDriveStateViaSdo_opCount,
        setDriveStateViaSdo_config, setDriveStateViaSdo_countConfigErr,
        setDriveStateViaSdo_fst, mapPdos_opLog, mapPdos_opCount,
        mapPdos_config, mapPdos_countConfigErr, mapPdos_fst] <;>
      (try split_ifs) <;>
      simp_all [preopOps, preopSuccessFormula, sdoStateOps, mapPdosOps,
        setDriveStateViaSdo_countConfigErr, mapPdos_countConfigErr,
        setDriveStateViaSdo_opLog, mapPdos_opLog,
        setDriveStateViaSdo_opCount, mapPdos_opCount,
        setDriveStateViaSdo_config, mapPdos_config,
        addErrorToReading, Reading.addError, List.count_append,
        List.append_assoc, Nat.add_assoc]

end Elmo
